import Mathlib

/-!
Shallow embedding of the `pyhdk` Python binding initializer
(`src/python/pyhdk/__init__.py` of intel-ai/hdk) and of the end-to-end
SQL scenario exercised by `src/python/tests/test_pyhdk_sql.py`.

The module body is compiled to a pure function `initModule` over an
explicit process state (dlopen flag mask, environment, DLL search
directories).  Every observable action of the module body (reading or
setting the dlopen flags, reading the environment, extending the DLL
search path, importing an engine submodule) is logged into an event
trace, so that claims about what happens *during* initialization can be
stated, not only claims about the final state.

The engine submodules (`pyhdk._common`, `pyhdk._execute`, `pyhdk.sql`,
`pyhdk.storage`, `pyhdk.hdk`, `pyhdk._builder`, `pyhdk.version`) are not
part of the repository's visible sources; they are abstracted as an
`Engine` record supplying the objects the wrapper re-exports, the string
returned by `Version.str()`, and the set of submodules whose import
raises.
-/

/-- The three platform cases distinguished by the module body:
`sys.platform == "linux"`, `sys.platform == "win32"`, anything else. -/
inductive Platform
  | linux
  | win32
  | other
deriving DecidableEq, Repr

/-- Value of `os.RTLD_LAZY` on linux/glibc. -/
def RTLD_LAZY : Nat := 1

/-- Value of `os.RTLD_GLOBAL` on linux/glibc. -/
def RTLD_GLOBAL : Nat := 256

/-- The flag mask installed for the duration of the engine imports:
`os.RTLD_LAZY | os.RTLD_GLOBAL`. -/
def lazyGlobalFlags : Nat := Nat.lor RTLD_LAZY RTLD_GLOBAL

/-- Observable actions performed by the module body, in order. -/
inductive Event
  | getdlopenflags (value : Nat)
  | setdlopenflags (value : Nat)
  | readEnviron (key : String)
  | addDllDirectory (dir : String)
  | importModule (name : String) (dlopenflagsAt : Nat)
deriving DecidableEq, Repr

/-- Exceptions that can escape the module body. -/
inductive PyErr
  | runtimeError (msg : String)
  | importError (modName : String)
deriving DecidableEq, Repr

/-- Process-wide state read and mutated by the module body. -/
structure ProcState where
  platform : Platform
  dlopenflags : Nat
  environ : List (String × String)
  dllDirs : List String
deriving DecidableEq, Repr

/-- Lookup of a key in the process environment (`os.environ`). -/
def lookupEnv (env : List (String × String)) (k : String) : Option String :=
  (env.find? (fun p => p.1 == k)).map Prod.snd

/-- Model of `os.path.join` for two components under Windows path rules:
append a backslash separator unless the base already ends in a separator
or a drive colon, or is empty. -/
def ntJoin2 (a b : String) : String :=
  if a = "" then b
  else if a.endsWith "\\" || a.endsWith "/" || a.endsWith ":" then a ++ b
  else a ++ "\\" ++ b

/-- The directory added to the DLL search path on win32:
`os.path.join(os.environ["JAVA_HOME"], "bin", "server")`. -/
def javaServerDir (javaHome : String) : String :=
  ntJoin2 (ntJoin2 javaHome "bin") "server"

/-- The message of the `RuntimeError` raised on win32 when `JAVA_HOME`
is absent. -/
def javaHomeMsg : String :=
  "HDK engine requires JAVA_HOME environment variable to point to Java runtime location."

/-- The engine side of the binding: the objects each engine submodule
defines (abstracted as numeric identities), the string returned by
`Version.str()`, and the list of submodules whose import raises. -/
structure Engine where
  typeInfoObj : Nat
  buildConfigObj : Nat
  initLoggerObj : Nat
  executorObj : Nat
  sqlModObj : Nat
  storageModObj : Nat
  initObj : Nat
  queryBuilderObj : Nat
  versionObj : Nat
  versionString : String
  failing : List String
deriving DecidableEq, Repr

/-- The seven import statements of the module body, in source order,
each with the package attributes it binds on success. -/
def importSpec (eng : Engine) : List (String × List (String × Nat)) :=
  [("pyhdk._common",
      [("TypeInfo", eng.typeInfoObj), ("buildConfig", eng.buildConfigObj),
       ("initLogger", eng.initLoggerObj)]),
   ("pyhdk._execute", [("Executor", eng.executorObj)]),
   ("pyhdk.sql", [("sql", eng.sqlModObj)]),
   ("pyhdk.storage", [("storage", eng.storageModObj)]),
   ("pyhdk.hdk", [("init", eng.initObj)]),
   ("pyhdk._builder", [("QueryBuilder", eng.queryBuilderObj)]),
   ("pyhdk.version", [("Version", eng.versionObj)])]

/-- Outcome of running the import block: the import events emitted, the
attributes bound so far, and the first import exception, if any. -/
structure ImportOutcome where
  events : List Event
  binds : List (String × Nat)
  err : Option PyErr
deriving DecidableEq, Repr

/-- Run the import statements in order under a fixed dlopen flag mask;
the first submodule in `failing` aborts the block with an import error. -/
def runImports (failing : List String) (flags : Nat) :
    List (String × List (String × Nat)) → ImportOutcome
  | [] => ⟨[], [], none⟩
  | (m, bs) :: rest =>
    if m ∈ failing then
      ⟨[Event.importModule m flags], [], some (PyErr.importError m)⟩
    else
      let r := runImports failing flags rest
      ⟨Event.importModule m flags :: r.events, bs ++ r.binds, r.err⟩

/-- The attributes the whole import block binds when no import fails. -/
def allBinds : List (String × List (String × Nat)) → List (String × Nat)
  | [] => []
  | (_, bs) :: rest => bs ++ allBinds rest

/-- The `pyhdk` package namespace after the module body ran: the bound
attributes and the eagerly computed `__version__` string (present only
when the body completed). -/
structure PyhdkModule where
  exports : List (String × Nat)
  versionAttr : Option String
deriving DecidableEq, Repr

/-- Attribute lookup on the package namespace. -/
def getAttr (m : PyhdkModule) (name : String) : Option Nat :=
  (m.exports.find? (fun p => p.1 == name)).map Prod.snd

/-- Result of executing the module body: the escaped exception (if any),
the process state afterwards, the package namespace built, and the trace
of observable actions. -/
structure InitResult where
  err : Option PyErr
  final : ProcState
  modAttrs : PyhdkModule
  events : List Event
deriving DecidableEq, Repr

/-- Execution of the body of `src/python/pyhdk/__init__.py`:

* linux: save `sys.getdlopenflags()`, set `RTLD_LAZY | RTLD_GLOBAL`,
  run the imports, and on success restore the saved flags and compute
  `__version__ = Version.str()`; an import exception escapes with the
  flags still set to the lazy/global value;
* win32: raise `RuntimeError` if `JAVA_HOME` is absent from the
  environment, otherwise add `JAVA_HOME\bin\server` to the DLL search
  path and run the imports at the unchanged flag mask;
* any other platform: run the imports only. -/
def initModule (eng : Engine) (s : ProcState) : InitResult :=
  match s.platform with
  | Platform.linux =>
    let prev := s.dlopenflags
    let setup := [Event.getdlopenflags prev, Event.setdlopenflags lazyGlobalFlags]
    let s1 : ProcState := { s with dlopenflags := lazyGlobalFlags }
    let r := runImports eng.failing lazyGlobalFlags (importSpec eng)
    match r.err with
    | some e => ⟨some e, s1, ⟨r.binds, none⟩, setup ++ r.events⟩
    | none =>
      ⟨none, { s1 with dlopenflags := prev }, ⟨r.binds, some eng.versionString⟩,
        setup ++ r.events ++ [Event.setdlopenflags prev]⟩
  | Platform.win32 =>
    match lookupEnv s.environ "JAVA_HOME" with
    | none =>
      ⟨some (PyErr.runtimeError javaHomeMsg), s, ⟨[], none⟩,
        [Event.readEnviron "JAVA_HOME"]⟩
    | some jh =>
      let dir := javaServerDir jh
      let setup := [Event.readEnviron "JAVA_HOME", Event.readEnviron "JAVA_HOME",
                    Event.addDllDirectory dir]
      let s1 : ProcState := { s with dllDirs := s.dllDirs ++ [dir] }
      let r := runImports eng.failing s.dlopenflags (importSpec eng)
      match r.err with
      | some e => ⟨some e, s1, ⟨r.binds, none⟩, setup ++ r.events⟩
      | none => ⟨none, s1, ⟨r.binds, some eng.versionString⟩, setup ++ r.events⟩
  | Platform.other =>
    let r := runImports eng.failing s.dlopenflags (importSpec eng)
    match r.err with
    | some e => ⟨some e, s, ⟨r.binds, none⟩, r.events⟩
    | none => ⟨none, s, ⟨r.binds, some eng.versionString⟩, r.events⟩

/-- Python caches modules: a second `import pyhdk` in the same process
does not re-run the module body.  Given the cached module (if any), a
fresh import either returns the cache untouched or executes the body. -/
def importPyhdk (eng : Engine) (cached : Option PyhdkModule) (s : ProcState) :
    Option PyErr × Option PyhdkModule × ProcState × List Event :=
  match cached with
  | some m => (none, some m, s, [])
  | none =>
    let r := initModule eng s
    match r.err with
    | some e => (some e, none, r.final, r.events)
    | none => (none, some r.modAttrs, r.final, r.events)

/-!
End-to-end SQL scenario, from `src/python/tests/test_pyhdk_sql.py`
(`TestSql.setup_class` and `TestSql.test_simple_count`).
-/

/-- Modelled from the spec: the engine's columnar storage
(`pyhdk.storage.ArrowStorage.importArrowTable`) is not under the visible
sources; a table is a list of named integer columns sharing one length,
and importing registers it under a name, raising when the name is
already taken. -/
structure ArrowTable where
  cols : List (String × List Int)
deriving DecidableEq, Repr

/-- Modelled from the spec: the number of rows of a columnar table is
the common length of its columns. -/
def ArrowTable.nrows (t : ArrowTable) : Nat :=
  match t.cols with
  | [] => 0
  | c :: _ => c.2.length

/-- Modelled from the spec: a storage is a registry of named tables. -/
abbrev Storage := List (String × ArrowTable)

/-- Modelled from the spec: `importArrowTable` registers a table under a
name, failing when a table of that name already exists. -/
def importArrowTable (st : Storage) (t : ArrowTable) (name : String) :
    Except String Storage :=
  if (List.find? (fun p => p.1 == name) st).isSome then
    Except.error "table already exists"
  else
    Except.ok (st ++ [(name, t)])

/-- Modelled from the spec: the result produced by the relational
algebra executor, as a row-major grid of integers. -/
structure SqlResult where
  rows : List (List Int)
deriving DecidableEq, Repr

/-- Modelled from the spec: the `(rows, columns)` shape of a result, as
observed through `res.to_arrow().to_pandas().shape`. -/
def SqlResult.shape (r : SqlResult) : Nat × Nat :=
  (r.rows.length, match r.rows with | [] => 0 | row :: _ => row.length)

/-- Modelled from the spec: executing `SELECT COUNT(*) FROM name;`
through Calcite and the relational algebra executor yields a single-cell
result holding the row count of the named table, or fails when the
table is unknown. -/
def executeCountStar (st : Storage) (name : String) : Except String SqlResult :=
  match List.find? (fun p => p.1 == name) st with
  | none => Except.error "table not found"
  | some p => Except.ok ⟨[[Int.ofNat p.2.nrows]]⟩

/-- The table imported by `TestSql.setup_class`:
`pandas.DataFrame({"a": [1, 2, 3], "b": [10, 20, 30]})`. -/
def testTable : ArrowTable :=
  ⟨[("a", [1, 2, 3]), ("b", [10, 20, 30])]⟩

/-- The storage after `setup_class`: the test table imported under the
name `test` into a fresh storage. -/
def testStorage : Except String Storage :=
  importArrowTable [] testTable "test"

/-!
Concrete sample inputs used by the witness theorems.
-/

/-- An engine whose submodules all import successfully. -/
def sampleEngine : Engine :=
  ⟨1, 2, 3, 4, 5, 6, 7, 8, 9, "0.9.0", []⟩

/-- An engine whose `pyhdk.sql` submodule raises on import. -/
def sqlFailEngine : Engine :=
  ⟨1, 2, 3, 4, 5, 6, 7, 8, 9, "0.9.0", ["pyhdk.sql"]⟩

/-- A linux process state with a nontrivial starting flag mask. -/
def sampleLinuxState : ProcState :=
  ⟨Platform.linux, 10, [], []⟩

/-- A win32 process state without `JAVA_HOME`. -/
def sampleWin32NoJava : ProcState :=
  ⟨Platform.win32, 0, [("PATH", "C:\\Windows")], []⟩

/-- A win32 process state with `JAVA_HOME` set. -/
def sampleWin32Java : ProcState :=
  ⟨Platform.win32, 0, [("JAVA_HOME", "C:\\jdk")], []⟩

/-- A process state on a platform that is neither linux nor win32. -/
def sampleOtherState : ProcState :=
  ⟨Platform.other, 5, [("JAVA_HOME", "/usr/lib/jvm")], []⟩

/-!
Helper lemmas about the import block.
-/

/-- Every event the import block emits is an import event carrying the
flag mask the block was run under. -/
theorem runImports_events_flags (failing : List String) (flags : Nat) :
    ∀ l : List (String × List (String × Nat)),
      ∀ ev ∈ (runImports failing flags l).events,
        ∃ m, ev = Event.importModule m flags := by
  intro l
  induction l with
  | nil => intro ev hev; simp [runImports] at hev
  | cons hd tl ih =>
    obtain ⟨m, bs⟩ := hd
    intro ev hev
    simp only [runImports] at hev
    by_cases hc : m ∈ failing
    · rw [if_pos hc] at hev
      simp at hev
      exact ⟨m, hev⟩
    · rw [if_neg hc] at hev
      simp at hev
      rcases hev with hev | hev
      · exact ⟨m, hev⟩
      · exact ih ev hev

/-- When no import fails, the import block binds every attribute of
every submodule. -/
theorem runImports_binds_of_ok (failing : List String) (flags : Nat) :
    ∀ l : List (String × List (String × Nat)),
      (runImports failing flags l).err = none →
      (runImports failing flags l).binds = allBinds l := by
  intro l
  induction l with
  | nil => intro _; rfl
  | cons hd tl ih =>
    obtain ⟨m, bs⟩ := hd
    intro h
    simp only [runImports] at h ⊢
    by_cases hc : m ∈ failing
    · rw [if_pos hc] at h
      simp at h
    · rw [if_neg hc] at h ⊢
      simp only [allBinds]
      simp only at h
      rw [ih h]

/-!
Claim theorems.
-/

/-- C1: on linux, for every starting value of the process-wide dlopen
flag mask, after initialization completes successfully the flag mask
equals the value it had immediately before initialization began. -/
theorem claim_C1_flags_round_trip (eng : Engine) (s : ProcState)
    (hp : s.platform = Platform.linux)
    (hok : (initModule eng s).err = none) :
    (initModule eng s).final.dlopenflags = s.dlopenflags := by
  obtain ⟨p, fl, env, dirs⟩ := s
  simp only at hp
  subst hp
  simp only [initModule] at hok ⊢
  cases hr : (runImports eng.failing lazyGlobalFlags (importSpec eng)).err with
  | some e => rw [hr] at hok; simp at hok
  | none => rfl

/-- Closed witness for C1 at a concrete engine and state. -/
theorem claim_C1_witness :
    sampleLinuxState.platform = Platform.linux ∧
    (initModule sampleEngine sampleLinuxState).err = none ∧
    (initModule sampleEngine sampleLinuxState).final.dlopenflags =
      sampleLinuxState.dlopenflags :=
  ⟨rfl, by decide, claim_C1_flags_round_trip sampleEngine sampleLinuxState rfl (by decide)⟩

/-- Helper: an import event of the import block carries the flag mask
the block was run under. -/
theorem import_event_flags (eng : Engine) (m : String) (f flags : Nat)
    (h : Event.importModule m f ∈ (runImports eng.failing flags (importSpec eng)).events) :
    f = flags := by
  obtain ⟨m', hm⟩ :=
    runImports_events_flags eng.failing flags (importSpec eng) (Event.importModule m f) h
  injection hm with h1 h2

/-- C3: on linux, when importing one of the engine submodules raises,
the exception escapes and the dlopen flag mask is left at the
lazy/global value instead of being restored to its previous value. -/
theorem claim_C3_no_restore_on_failure (eng : Engine) (s : ProcState) (e : PyErr)
    (hp : s.platform = Platform.linux)
    (hfail : (runImports eng.failing lazyGlobalFlags (importSpec eng)).err = some e) :
    (initModule eng s).err = some e ∧
    (initModule eng s).final.dlopenflags = lazyGlobalFlags ∧
    (s.dlopenflags ≠ lazyGlobalFlags →
      (initModule eng s).final.dlopenflags ≠ s.dlopenflags) := by
  obtain ⟨p, fl, env, dirs⟩ := s
  simp only at hp
  subst hp
  refine ⟨by simp [initModule, hfail], by simp [initModule, hfail], fun h => ?_⟩
  have hfl :
      (initModule eng ⟨Platform.linux, fl, env, dirs⟩).final.dlopenflags =
        lazyGlobalFlags := by
    simp [initModule, hfail]
  rw [hfl]
  exact fun heq => h heq.symm

/-- Closed witness for C3: the `pyhdk.sql` import fails and the flags
stay at the lazy/global value. -/
theorem claim_C3_witness :
    sampleLinuxState.platform = Platform.linux ∧
    (runImports sqlFailEngine.failing lazyGlobalFlags (importSpec sqlFailEngine)).err =
      some (PyErr.importError "pyhdk.sql") ∧
    ((initModule sqlFailEngine sampleLinuxState).err =
        some (PyErr.importError "pyhdk.sql") ∧
      (initModule sqlFailEngine sampleLinuxState).final.dlopenflags = lazyGlobalFlags ∧
      (sampleLinuxState.dlopenflags ≠ lazyGlobalFlags →
        (initModule sqlFailEngine sampleLinuxState).final.dlopenflags ≠
          sampleLinuxState.dlopenflags)) :=
  ⟨rfl, by decide,
    claim_C3_no_restore_on_failure sqlFailEngine sampleLinuxState
      (PyErr.importError "pyhdk.sql") rfl (by decide)⟩

/-- C4: on linux, every engine submodule import runs while the dlopen
flag mask is exactly `RTLD_LAZY | RTLD_GLOBAL`, and the mask installed
before the imports is that value itself, independent of the previous
mask (full replacement, not augmentation). -/
theorem claim_C4_flags_during_imports (eng : Engine) (s : ProcState)
    (hp : s.platform = Platform.linux) :
    (∀ m f, Event.importModule m f ∈ (initModule eng s).events →
        f = Nat.lor RTLD_LAZY RTLD_GLOBAL) ∧
    Event.setdlopenflags (Nat.lor RTLD_LAZY RTLD_GLOBAL) ∈ (initModule eng s).events := by
  obtain ⟨p, fl, env, dirs⟩ := s
  simp only at hp
  subst hp
  simp only [initModule]
  cases hr : (runImports eng.failing lazyGlobalFlags (importSpec eng)).err with
  | some e =>
    refine ⟨fun m f hmem => ?_, ?_⟩
    · simp only [List.cons_append, List.nil_append, List.mem_cons] at hmem
      rcases hmem with hmem | hmem | hmem
      · exact absurd hmem (by simp)
      · exact absurd hmem (by simp)
      · exact import_event_flags eng m f lazyGlobalFlags hmem
    · simp [lazyGlobalFlags]
  | none =>
    refine ⟨fun m f hmem => ?_, ?_⟩
    · simp only [List.append_assoc, List.cons_append, List.nil_append,
        List.mem_cons, List.mem_append, List.mem_singleton] at hmem
      rcases hmem with hmem | hmem | hmem | hmem
      · exact absurd hmem (by simp)
      · exact absurd hmem (by simp)
      · exact import_event_flags eng m f lazyGlobalFlags hmem
      · exact absurd hmem (by simp)
    · simp [lazyGlobalFlags]

/-- Closed witness for C4 at a concrete engine and state. -/
theorem claim_C4_witness :
    sampleLinuxState.platform = Platform.linux ∧
    ((∀ m f, Event.importModule m f ∈ (initModule sampleEngine sampleLinuxState).events →
        f = Nat.lor RTLD_LAZY RTLD_GLOBAL) ∧
      Event.setdlopenflags (Nat.lor RTLD_LAZY RTLD_GLOBAL) ∈
        (initModule sampleEngine sampleLinuxState).events) :=
  ⟨rfl, claim_C4_flags_during_imports sampleEngine sampleLinuxState rfl⟩

/-- C2: on win32 with `JAVA_HOME` absent, initialization raises the
descriptive `RuntimeError` synchronously: no engine module is imported
and the process state (DLL search path included) is untouched. -/
theorem claim_C2_missing_java_home (eng : Engine) (s : ProcState)
    (hp : s.platform = Platform.win32)
    (hj : lookupEnv s.environ "JAVA_HOME" = none) :
    (initModule eng s).err = some (PyErr.runtimeError javaHomeMsg) ∧
    (∀ m f, Event.importModule m f ∉ (initModule eng s).events) ∧
    (initModule eng s).final = s := by
  obtain ⟨p, fl, env, dirs⟩ := s
  simp only at hp hj
  subst hp
  simp [initModule, hj]

/-- Closed witness for C2 at a concrete state without `JAVA_HOME`. -/
theorem claim_C2_witness :
    sampleWin32NoJava.platform = Platform.win32 ∧
    lookupEnv sampleWin32NoJava.environ "JAVA_HOME" = none ∧
    ((initModule sampleEngine sampleWin32NoJava).err =
        some (PyErr.runtimeError javaHomeMsg) ∧
      (∀ m f, Event.importModule m f ∉ (initModule sampleEngine sampleWin32NoJava).events) ∧
      (initModule sampleEngine sampleWin32NoJava).final = sampleWin32NoJava) :=
  ⟨rfl, by decide, claim_C2_missing_java_home sampleEngine sampleWin32NoJava rfl (by decide)⟩

/-- C5: on win32 with `JAVA_HOME` present, the DLL search path is
extended with exactly the join of `JAVA_HOME`, `bin` and `server`, and
the dlopen flag mask is neither read nor written. -/
theorem claim_C5_java_home_present (eng : Engine) (s : ProcState) (jh : String)
    (hp : s.platform = Platform.win32)
    (hj : lookupEnv s.environ "JAVA_HOME" = some jh) :
    (initModule eng s).final.dllDirs = s.dllDirs ++ [javaServerDir jh] ∧
    (initModule eng s).final.dlopenflags = s.dlopenflags ∧
    (∀ v, Event.getdlopenflags v ∉ (initModule eng s).events ∧
          Event.setdlopenflags v ∉ (initModule eng s).events) := by
  obtain ⟨p, fl, env, dirs⟩ := s
  simp only at hp hj
  subst hp
  simp only [initModule, hj]
  cases hr : (runImports eng.failing fl (importSpec eng)).err with
  | some e =>
    refine ⟨rfl, rfl, fun v => ⟨fun hmem => ?_, fun hmem => ?_⟩⟩ <;>
    · simp only [List.cons_append, List.nil_append, List.mem_cons] at hmem
      rcases hmem with hmem | hmem | hmem | hmem
      · exact absurd hmem (by simp)
      · exact absurd hmem (by simp)
      · exact absurd hmem (by simp)
      · obtain ⟨m', hm⟩ :=
          runImports_events_flags eng.failing fl (importSpec eng) _ hmem
        exact absurd hm (by simp)
  | none =>
    refine ⟨rfl, rfl, fun v => ⟨fun hmem => ?_, fun hmem => ?_⟩⟩ <;>
    · simp only [List.cons_append, List.nil_append, List.mem_cons] at hmem
      rcases hmem with hmem | hmem | hmem | hmem
      · exact absurd hmem (by simp)
      · exact absurd hmem (by simp)
      · exact absurd hmem (by simp)
      · obtain ⟨m', hm⟩ :=
          runImports_events_flags eng.failing fl (importSpec eng) _ hmem
        exact absurd hm (by simp)

/-- Closed witness for C5 at a concrete state with `JAVA_HOME` set. -/
theorem claim_C5_witness :
    sampleWin32Java.platform = Platform.win32 ∧
    lookupEnv sampleWin32Java.environ "JAVA_HOME" = some "C:\\jdk" ∧
    ((initModule sampleEngine sampleWin32Java).final.dllDirs =
        sampleWin32Java.dllDirs ++ [javaServerDir "C:\\jdk"] ∧
      (initModule sampleEngine sampleWin32Java).final.dlopenflags =
        sampleWin32Java.dlopenflags ∧
      (∀ v, Event.getdlopenflags v ∉ (initModule sampleEngine sampleWin32Java).events ∧
            Event.setdlopenflags v ∉ (initModule sampleEngine sampleWin32Java).events)) :=
  ⟨rfl, by decide,
    claim_C5_java_home_present sampleEngine sampleWin32Java "C:\\jdk" rfl (by decide)⟩

/-- C6: on a platform that is neither linux nor win32, the process
state is unchanged and the only observable actions are the engine
submodule imports. -/
theorem claim_C6_other_platform_passthrough (eng : Engine) (s : ProcState)
    (hp : s.platform = Platform.other) :
    (initModule eng s).final = s ∧
    (∀ ev ∈ (initModule eng s).events, ∃ m f, ev = Event.importModule m f) := by
  obtain ⟨p, fl, env, dirs⟩ := s
  simp only at hp
  subst hp
  simp only [initModule]
  cases hr : (runImports eng.failing fl (importSpec eng)).err with
  | some e =>
    refine ⟨rfl, fun ev hev => ?_⟩
    obtain ⟨m, hm⟩ := runImports_events_flags eng.failing fl (importSpec eng) ev hev
    exact ⟨m, fl, hm⟩
  | none =>
    refine ⟨rfl, fun ev hev => ?_⟩
    obtain ⟨m, hm⟩ := runImports_events_flags eng.failing fl (importSpec eng) ev hev
    exact ⟨m, fl, hm⟩

/-- Closed witness for C6 at a concrete non-linux, non-win32 state. -/
theorem claim_C6_witness :
    sampleOtherState.platform = Platform.other ∧
    ((initModule sampleEngine sampleOtherState).final = sampleOtherState ∧
      (∀ ev ∈ (initModule sampleEngine sampleOtherState).events,
        ∃ m f, ev = Event.importModule m f)) :=
  ⟨rfl, claim_C6_other_platform_passthrough sampleEngine sampleOtherState rfl⟩

/-- Helper: on every successful initialization the exported attributes
are exactly those bound by the full import block. -/
theorem initModule_exports_of_ok (eng : Engine) (s : ProcState)
    (hok : (initModule eng s).err = none) :
    (initModule eng s).modAttrs.exports = allBinds (importSpec eng) := by
  obtain ⟨p, fl, env, dirs⟩ := s
  cases p with
  | linux =>
    simp only [initModule] at hok ⊢
    cases hr : (runImports eng.failing lazyGlobalFlags (importSpec eng)).err with
    | some e => rw [hr] at hok; simp at hok
    | none =>
      show (runImports eng.failing lazyGlobalFlags (importSpec eng)).binds = _
      exact runImports_binds_of_ok eng.failing lazyGlobalFlags (importSpec eng) hr
  | win32 =>
    simp only [initModule] at hok ⊢
    cases hv : lookupEnv env "JAVA_HOME" with
    | none => rw [hv] at hok; simp at hok
    | some jh =>
      rw [hv] at hok
      cases hr : (runImports eng.failing fl (importSpec eng)).err with
      | some e => rw [hr] at hok; simp at hok
      | none =>
        show (runImports eng.failing fl (importSpec eng)).binds = _
        exact runImports_binds_of_ok eng.failing fl (importSpec eng) hr
  | other =>
    simp only [initModule] at hok ⊢
    cases hr : (runImports eng.failing fl (importSpec eng)).err with
    | some e => rw [hr] at hok; simp at hok
    | none =>
      show (runImports eng.failing fl (importSpec eng)).binds = _
      exact runImports_binds_of_ok eng.failing fl (importSpec eng) hr

/-- C7: after a successful initialization each advertised entry point is
reachable in the package namespace, bound to exactly the object the
corresponding engine module defines. -/
theorem claim_C7_reexported_entry_points (eng : Engine) (s : ProcState)
    (hok : (initModule eng s).err = none) :
    getAttr (initModule eng s).modAttrs "TypeInfo" = some eng.typeInfoObj ∧
    getAttr (initModule eng s).modAttrs "buildConfig" = some eng.buildConfigObj ∧
    getAttr (initModule eng s).modAttrs "initLogger" = some eng.initLoggerObj ∧
    getAttr (initModule eng s).modAttrs "Executor" = some eng.executorObj ∧
    getAttr (initModule eng s).modAttrs "sql" = some eng.sqlModObj ∧
    getAttr (initModule eng s).modAttrs "storage" = some eng.storageModObj ∧
    getAttr (initModule eng s).modAttrs "init" = some eng.initObj ∧
    getAttr (initModule eng s).modAttrs "QueryBuilder" = some eng.queryBuilderObj ∧
    getAttr (initModule eng s).modAttrs "Version" = some eng.versionObj := by
  have heq := initModule_exports_of_ok eng s hok
  simp only [getAttr, heq]
  refine ⟨rfl, rfl, rfl, rfl, rfl, rfl, rfl, rfl, rfl⟩

/-- Closed witness for C7 at a concrete engine and state. -/
theorem claim_C7_witness :
    (initModule sampleEngine sampleLinuxState).err = none ∧
    getAttr (initModule sampleEngine sampleLinuxState).modAttrs "TypeInfo" =
      some sampleEngine.typeInfoObj :=
  ⟨by decide, (claim_C7_reexported_entry_points sampleEngine sampleLinuxState (by decide)).1⟩

/-- C8: once the binding has been initialized successfully, a second
module import finds the cached module and re-runs nothing: no error is raised
and leaves the module attributes and the process state identical. -/
theorem claim_C8_second_import_idempotent (eng : Engine) (s : ProcState)
    (hok : (initModule eng s).err = none) :
    importPyhdk eng (some (initModule eng s).modAttrs) (initModule eng s).final =
      (none, some (initModule eng s).modAttrs, (initModule eng s).final, []) := rfl

/-- Closed witness for C8 at a concrete engine and state. -/
theorem claim_C8_witness :
    (initModule sampleEngine sampleLinuxState).err = none ∧
    importPyhdk sampleEngine (some (initModule sampleEngine sampleLinuxState).modAttrs)
        (initModule sampleEngine sampleLinuxState).final =
      (none, some (initModule sampleEngine sampleLinuxState).modAttrs,
        (initModule sampleEngine sampleLinuxState).final, []) :=
  ⟨by decide, claim_C8_second_import_idempotent sampleEngine sampleLinuxState (by decide)⟩

/-- C10: after a successful initialization `__version__` is present in
the package namespace (computed eagerly by the module body) and equals
the string returned by `Version.str()`. -/
theorem claim_C10_version_attr (eng : Engine) (s : ProcState)
    (hok : (initModule eng s).err = none) :
    (initModule eng s).modAttrs.versionAttr = some eng.versionString := by
  obtain ⟨p, fl, env, dirs⟩ := s
  cases p with
  | linux =>
    simp only [initModule] at hok ⊢
    cases hr : (runImports eng.failing lazyGlobalFlags (importSpec eng)).err with
    | some e => rw [hr] at hok; simp at hok
    | none => rfl
  | win32 =>
    simp only [initModule] at hok ⊢
    cases hv : lookupEnv env "JAVA_HOME" with
    | none => rw [hv] at hok; simp at hok
    | some jh =>
      rw [hv] at hok
      cases hr : (runImports eng.failing fl (importSpec eng)).err with
      | some e => rw [hr] at hok; simp at hok
      | none => rfl
  | other =>
    simp only [initModule] at hok ⊢
    cases hr : (runImports eng.failing fl (importSpec eng)).err with
    | some e => rw [hr] at hok; simp at hok
    | none => rfl

/-- Closed witness for C10 at a concrete engine and state. -/
theorem claim_C10_witness :
    (initModule sampleEngine sampleLinuxState).err = none ∧
    (initModule sampleEngine sampleLinuxState).modAttrs.versionAttr =
      some sampleEngine.versionString :=
  ⟨by decide, claim_C10_version_attr sampleEngine sampleLinuxState (by decide)⟩

/-- C9: importing the two-column, three-row test table into a fresh
storage succeeds, and `SELECT COUNT(*) FROM test;` yields a result of
shape `(1, 1)` whose single value is `3`. -/
theorem claim_C9_simple_count :
    testStorage = Except.ok [("test", testTable)] ∧
    executeCountStar [("test", testTable)] "test" = Except.ok ⟨[[3]]⟩ ∧
    SqlResult.shape ⟨[[3]]⟩ = (1, 1) := by
  refine ⟨?_, ?_, rfl⟩ <;> rfl
